import Mathlib

/-!
# Verification of `convert_gps.py`

Shallow embedding of the GPS log poller `src/eee192-gps/convert_gps.py`.

Modelling conventions:
* Python floats are modelled as exact rationals (`ℚ`); `round(x, 3)` is
  modelled as round-half-to-even on the exact rational value, matching
  CPython's documented rounding mode for `round`.
* Python string indexing `term[i]` raises `IndexError` out of range; this is
  modelled with `List.get?` returning `none`.  `float(s)` raises `ValueError`
  on non-numeric input; it is modelled by `pyFloat?` returning `none`.
  `pyFloat?` covers the digit-and-dot strings that the program slices out of
  NMEA fields (it does not model exotic accepted forms such as leading
  whitespace, signs, exponents or `nan`, none of which occur in the claims).
* Fallible computations return `Option`/`Except`; the blanket
  `try`/`except Exception` of the poll loop is modelled by `step` pattern
  matching on the `Except` result of the loop body `bodyE`.
-/

namespace ConvertGps

/-- Value of a list of ASCII digit characters, most significant first
(`['4','8'] ↦ 48`). -/
def digitsVal (cs : List Char) : ℕ :=
  cs.foldl (fun a c => 10 * a + (c.toNat - 48)) 0

/-- All characters are ASCII digits. -/
def allDigits (cs : List Char) : Bool :=
  cs.all Char.isDigit

/-- Worker for `pyFloat?`: consumes the integer part digit by digit; on a dot
the remainder must be all digits (Python accepts `"5."` and `".5"` but not
`"."` or a second dot). -/
def pyFloatGo : List Char → ℕ → Bool → Option ℚ
  | [], acc, seen => if seen then some ((acc : ℚ)) else none
  | c :: rest, acc, seen =>
      if c = '.' then
        if allDigits rest ∧ (seen = true ∨ rest ≠ []) then
          some ((acc : ℚ) + (digitsVal rest : ℚ) / 10 ^ rest.length)
        else none
      else if c.isDigit then pyFloatGo rest (10 * acc + (c.toNat - 48)) true
      else none

/-- Model of Python `float(s)` on the unsigned digit/dot strings the program
produces by slicing NMEA fields; `none` models a raised `ValueError`. -/
def pyFloat? (cs : List Char) : Option ℚ :=
  pyFloatGo cs 0 false

/-- Floor of a rational, computed on the numerator and denominator so that
proofs can evaluate it by kernel reduction. -/
def ratFloor (q : ℚ) : ℤ :=
  Int.fdiv q.num (q.den : ℤ)

/-- Round-half-to-even of a rational to an integer (CPython `round` mode);
away from the halfway point this is rounding to the nearest integer,
`⌊q + 1/2⌋`.  Caveat: CPython rounds the *double* value, which at an exact
decimal tie of the abstract computation may land on either side of the
halfway point depending on the binary representation; theorems whose
conclusion depends on a rounding direction therefore use inputs at which
the double computation and this exact-rational model agree (see
`C1_counterexample`), and the remaining theorems are identities applying
the rounding to the same rational on both sides. -/
def rhe (q : ℚ) : ℤ :=
  if q - ratFloor q = 1 / 2 then
    (if ratFloor q % 2 = 0 then ratFloor q else ratFloor q + 1)
  else ratFloor (q + 1 / 2)

/-- Model of Python `round(x, 3)` on the exact value (see the caveat on
`rhe` about exact decimal ties under double arithmetic). -/
def pyRound3 (q : ℚ) : ℚ :=
  (rhe (q * 1000) : ℚ) / 1000

/-- `n` printed in decimal, left-padded with zeros to `k` digits. -/
def padZeros (k n : ℕ) : String :=
  let s := toString n
  String.mk (List.replicate (k - s.length) '0') ++ s

/-- The fractional digits (out of `fp/1000`) as Python `repr` prints them:
trailing zeros stripped, at least one digit. -/
def fracStr3 (fp : ℕ) : String :=
  if fp % 100 = 0 then toString (fp / 100)
  else if fp % 10 = 0 then padZeros 2 (fp / 10)
  else padZeros 3 fp

/-- Model of the f-string rendering `f"{x}"` of a nonnegative Python float
that is (the nearest double to) a multiple of `1/1000`: shortest decimal
form, always keeping one fractional digit (`f"{0.0}" = "0.0"`). -/
def pyFormat (q : ℚ) : String :=
  let n : ℕ := (ratFloor (q * 1000)).toNat
  toString (n / 1000) ++ "." ++ fracStr3 (n % 1000)

/-- Embedding of `convert_to_decimal_deg` (convert_gps.py lines 23-33).
For `"lat"`: `DD = float(term[0]+term[1])`, `mm_1 = term[2]+term[3]`,
`mm_2 = term[5]+term[6]`; for `"long"`: `DD = float(term[0]+term[1]+term[2])`,
`mm_1 = term[3]+term[4]`, `mm_2 = term[6]+term[7]`; then
`deci = float(mm_1 + "." + mm_2)` and the result is
`f"{round((DD + deci/60),3)}"`.  `none` models any raised exception
(`IndexError` on a short string, `ValueError` on non-numeric slices,
`UnboundLocalError` on an unknown selector). -/
def convert_to_decimal_deg (term : String) (long_or_lat : String) : Option String :=
  let cs := term.data
  if long_or_lat = "lat" then
    match cs.get? 0, cs.get? 1, cs.get? 2, cs.get? 3, cs.get? 5, cs.get? 6 with
    | some c0, some c1, some c2, some c3, some c5, some c6 =>
      match pyFloat? [c0, c1], pyFloat? [c2, c3, '.', c5, c6] with
      | some dd, some deci => some (pyFormat (pyRound3 (dd + deci / 60)))
      | _, _ => none
    | _, _, _, _, _, _ => none
  else if long_or_lat = "long" then
    match cs.get? 0, cs.get? 1, cs.get? 2, cs.get? 3, cs.get? 4, cs.get? 6, cs.get? 7 with
    | some c0, some c1, some c2, some c3, some c4, some c6, some c7 =>
      match pyFloat? [c0, c1, c2], pyFloat? [c3, c4, '.', c6, c7] with
      | some dd, some deci => some (pyFormat (pyRound3 (dd + deci / 60)))
      | _, _ => none
    | _, _, _, _, _, _, _ => none
  else none

/-- Embedding of `fancy_waiting` (convert_gps.py lines 35-43). -/
def fancy_waiting (msg : String) (i : ℤ) : String :=
  if i = 0 then msg ++ "."
  else if i = 1 then msg ++ ".."
  else if i = 2 then msg ++ "..."
  else msg ++ "..."

/-- The specification's own decimal-degrees formula, §8 of the spec
(`Modelled from the spec`, for comparison with `convert_to_decimal_deg`):
"For all valid latitude strings of the form `DDMM.mmmm` ...,
decimal_degrees(lat) == round(DD + float(MM.mmmm)/60, 3)", and with `DDD` for
longitude.  `DD` is the first 2 (lat) / 3 (long) characters, and the whole
remainder `MM.mmmm` is the minutes part. -/
def spec_decimal_degrees (term : String) (long_or_lat : String) : Option String :=
  if long_or_lat = "lat" then
    match pyFloat? (term.data.take 2), pyFloat? (term.data.drop 2) with
    | some dd, some mm => some (pyFormat (pyRound3 (dd + mm / 60)))
    | _, _ => none
  else if long_or_lat = "long" then
    match pyFloat? (term.data.take 3), pyFloat? (term.data.drop 3) with
    | some dd, some mm => some (pyFormat (pyRound3 (dd + mm / 60)))
    | _, _ => none
  else none

/-! ### The command-line interface (convert_gps.py lines 6-12)

`argparse` with `type=int` applies Python `int(...)` to the command-line
string and reports a usage error (exiting the process) when it raises. -/

/-- `cs` is nonempty and all ASCII digits. -/
def digitsOnly (cs : List Char) : Bool :=
  cs ≠ [] && cs.all Char.isDigit

/-- Model of Python `int(s)` on an argument string (optional sign, digits;
`none` models a raised `ValueError`, e.g. on `"2.99"`).  Surrounding
whitespace and underscore separators, which Python also accepts, do not occur
in the claims and are not modelled. -/
def pyIntOfString? (s : String) : Option ℤ :=
  match s.data with
  | '-' :: rest => if digitsOnly rest then some (-(digitsVal rest : ℤ)) else none
  | '+' :: rest => if digitsOnly rest then some ((digitsVal rest : ℤ)) else none
  | cs => if digitsOnly cs then some ((digitsVal cs : ℤ)) else none

/-- Model of `argparse` handling of `--time VALUE` with `type=int`
(convert_gps.py line 9): the string is passed to `int`; on failure argparse
prints a usage error and exits, modelled by `Except.error`. -/
def parseTimeArg (s : String) : Except String ℤ :=
  match pyIntOfString? s with
  | some n => Except.ok n
  | none => Except.error ("argument -t/--time: invalid int value: " ++ s)

/-! ### The poll loop (convert_gps.py lines 44-80)

State carried between iterations of `while True`: the `error` flag, the
ellipsis counter `it`, and the `parts` variable, which is only assigned when
a `$GPGLL` line is found (before its first assignment, referencing it raises
`NameError`; the blanket `except Exception` of line 76 catches that too). -/

/-- The mutable state surviving one loop iteration. -/
structure LoopState where
  error : ℤ
  it : ℤ
  parts : Option (List String)
deriving DecidableEq

/-- One poll's view of the target file: `missing` models `open` raising
(e.g. `FileNotFoundError`); `content lines` is the sequence of lines read. -/
inductive FileRead where
  | missing
  | content (lines : List String)
deriving DecidableEq

/-- The observable outcome of one loop iteration: the successor state, the
lines printed to the terminal, the records appended to `debug.log`, and
whether `time.sleep` ran. -/
structure IterResult where
  state : LoopState
  printed : List String
  logged : List String
  slept : Bool
deriving DecidableEq

/-- Worker for `pySplit`: split at every comma, accumulating the current
field in reverse. -/
def pySplitAux : List Char → List Char → List String
  | [], acc => [String.mk acc.reverse]
  | c :: rest, acc =>
    if c = ',' then String.mk acc.reverse :: pySplitAux rest []
    else pySplitAux rest (c :: acc)

/-- Python `line.split(",")`. -/
def pySplit (s : String) : List String :=
  pySplitAux s.data []

/-- `leadsWith pat cs`: `pat` is an initial run of `cs` (structural version
of string prefix test, so that proofs can evaluate it). -/
def leadsWith : List Char → List Char → Bool
  | [], _ => true
  | _ :: _, [] => false
  | a :: pat, b :: cs => a = b && leadsWith pat cs

/-- Python `line.startswith("$GPGLL")`. -/
def startsGpgll (l : String) : Bool :=
  leadsWith "$GPGLL".data l.data

/-- The field-split of the last line starting with `$GPGLL`
(convert_gps.py lines 54-57). -/
def lastGpgll (lines : List String) : Option (List String) :=
  ((lines.filter startsGpgll).getLast?).map pySplit

/-- The status line of convert_gps.py line 74:
`f"\x1b[93m{start}{current_time} \x1b[97m| \x1b[92mLong: \x1b[37m{parts[1]}{comma} \x1b[37m{parts[2]} \x1b[97m| \x1b[92mLat: \x1b[37m{parts[3]}{comma} \x1b[37m{parts[4]}{end}"`. -/
def renderStatus (start t q1 comma q2 q3 q4 endE : String) : String :=
  "\x1b[93m" ++ start ++ t ++ " \x1b[97m| " ++ "\x1b[92mLong: " ++ "\x1b[37m" ++ q1 ++
    comma ++ " \x1b[37m" ++ q2 ++ " \x1b[97m| " ++ "\x1b[92mLat: " ++ "\x1b[37m" ++ q3 ++
    comma ++ " \x1b[37m" ++ q4 ++ endE

/-- The record appended to `debug.log` by `flush_to_file`
(convert_gps.py lines 19-22 and 61). -/
def logRecord (t c1 q2 c3 q4 : String) : String :=
  "\x1b[93,m" ++ t ++ ", " ++ c1 ++ ", " ++ q2 ++ ", " ++ c3 ++ ", " ++ q4 ++ "\n"

/-- Lines 66-74: choose the cursor rewind and clear escapes from the error
flag, compute `comma` from `parts[2]`, and print the status line.  Reading
`parts[2]`/`parts[4]` can raise `IndexError` on a short split (line 73/74),
modelled by the error case.  On success the error flag is reset to 0. -/
def finishE (err : ℤ) (t : String) (ps : List String) (logged : List String) :
    Except (Option (List String) × String) (List String × List String × String) :=
  match ps.get? 1, ps.get? 2, ps.get? 3, ps.get? 4 with
  | some q1, some q2, some q3, some q4 =>
    let start := if err = 1 then "\x1b[2F" else "\x1b[1F"
    let endE := if err = 1 then "\x1b[0J" else "\x1b[0K"
    let comma := if q2 ≠ "" then "\x1b[97m," else ""
    Except.ok (ps, logged, renderStatus start t q1 comma q2 q3 q4 endE)
  | _, _, _, _ => Except.error (some ps, "IndexError")

/-- Lines 58-74 applied to the current field split `ps`: test `parts[1]` and
`parts[3]`; when both are non-empty convert them in place and append the
colorized record to `debug.log` (lines 58-61), otherwise substitute the
waiting indicator for each empty one (lines 62-65); then render via
`finishE`. -/
def processParts (err : ℤ) (itNew : ℤ) (t : String) (ps : List String) :
    Except (Option (List String) × String) (List String × List String × String) :=
  match ps.get? 1, ps.get? 3 with
  | some p1, some p3 =>
    if p1 ≠ "" ∧ p3 ≠ "" then
      match convert_to_decimal_deg p1 "lat" with
      | none => Except.error (some ps, "ValueError")
      | some c1 =>
        let ps1 := ps.set 1 c1
        match convert_to_decimal_deg p3 "long" with
        | none => Except.error (some ps1, "ValueError")
        | some c3 =>
          let ps2 := ps1.set 3 c3
          match ps2.get? 2, ps2.get? 4 with
          | some q2, some q4 => finishE err t ps2 [logRecord t c1 q2 c3 q4]
          | _, _ => Except.error (some ps2, "IndexError")
    else
      let ps1 := if p1 = "" then ps.set 1 (fancy_waiting "Waiting for data" itNew) else ps
      let ps2 := if p3 = "" then ps1.set 3 (fancy_waiting "Waiting for data" itNew) else ps1
      finishE err t ps2 []
  | _, _ => Except.error (some ps, "IndexError")

/-- The body of one iteration (convert_gps.py lines 52-74), with the `it`
counter already updated to `itNew`.  An `Except.error (p, e)` models an
exception `e` escaping to the `except` handler with `parts` last assigned
`p`; `Except.ok (ps, logged, line)` is a completed pass about to print
`line` and sleep. -/
def bodyE (s : LoopState) (itNew : ℤ) (file : FileRead) (t : String) :
    Except (Option (List String) × String) (List String × List String × String) :=
  match file with
  | FileRead.missing => Except.error (s.parts, "FileNotFoundError")
  | FileRead.content lines =>
    let partsNow := match lastGpgll lines with
      | some p => some p
      | none => s.parts
    match partsNow with
    | none => Except.error (none, "NameError")
    | some ps => processParts s.error itNew t ps

/-- One full iteration of the `while True` loop, including the counter update
of lines 47-49 and the `except Exception` handler of lines 76-80: on any
exception the handler prints a two-line error block (the first line rewinding
two rows), sets the error flag, and `continue`s without sleeping. -/
def step (s : LoopState) (file : FileRead) (t : String) : IterResult :=
  let itNew := if s.it = 2 then 0 else s.it + 1
  match bodyE s itNew file t with
  | Except.ok (ps, logged, line) =>
    { state := { error := 0, it := itNew, parts := some ps },
      printed := [line], logged := logged, slept := true }
  | Except.error (pc, e) =>
    { state := { error := 1, it := itNew, parts := pc },
      printed := ["\x1b[2F" ++ t ++ " | Bits lost... Looping again...\x1b[K",
        "Error: " ++ e ++ "\x1b[K"],
      logged := [], slept := false }

/-! ### Evaluation lemmas for digit strings -/

lemma digitChar_isDigit (a : ℕ) (h : a < 10) : (Nat.digitChar a).isDigit = true := by
  interval_cases a <;> decide

lemma digitChar_ne_dot (a : ℕ) (h : a < 10) : Nat.digitChar a ≠ '.' := by
  interval_cases a <;> decide

lemma digitChar_toNat_sub (a : ℕ) (h : a < 10) : (Nat.digitChar a).toNat - 48 = a := by
  interval_cases a <;> decide

lemma pyFloatGo_digit (c : Char) (rest : List Char) (acc : ℕ) (seen : Bool)
    (hd : c.isDigit = true) (hne : c ≠ '.') :
    pyFloatGo (c :: rest) acc seen = pyFloatGo rest (10 * acc + (c.toNat - 48)) true := by
  simp only [pyFloatGo]
  rw [if_neg hne, if_pos hd]

lemma pyFloat2 (a b : ℕ) (ha : a < 10) (hb : b < 10) :
    pyFloat? [Nat.digitChar a, Nat.digitChar b] = some (((10 * a + b : ℕ) : ℚ)) := by
  unfold pyFloat?
  rw [pyFloatGo_digit _ _ _ _ (digitChar_isDigit a ha) (digitChar_ne_dot a ha),
    pyFloatGo_digit _ _ _ _ (digitChar_isDigit b hb) (digitChar_ne_dot b hb),
    digitChar_toNat_sub a ha, digitChar_toNat_sub b hb]
  simp [pyFloatGo]

lemma pyFloat3 (a b c : ℕ) (ha : a < 10) (hb : b < 10) (hc : c < 10) :
    pyFloat? [Nat.digitChar a, Nat.digitChar b, Nat.digitChar c]
      = some (((100 * a + 10 * b + c : ℕ) : ℚ)) := by
  unfold pyFloat?
  rw [pyFloatGo_digit _ _ _ _ (digitChar_isDigit a ha) (digitChar_ne_dot a ha),
    pyFloatGo_digit _ _ _ _ (digitChar_isDigit b hb) (digitChar_ne_dot b hb),
    pyFloatGo_digit _ _ _ _ (digitChar_isDigit c hc) (digitChar_ne_dot c hc),
    digitChar_toNat_sub a ha, digitChar_toNat_sub b hb, digitChar_toNat_sub c hc]
  simp [pyFloatGo]
  ring_nf

lemma digitsVal_two (c d : ℕ) (hc : c < 10) (hd : d < 10) :
    digitsVal [Nat.digitChar c, Nat.digitChar d] = 10 * c + d := by
  simp [digitsVal, List.foldl, digitChar_toNat_sub c hc, digitChar_toNat_sub d hd]

lemma pyFloat5 (a b c d : ℕ) (ha : a < 10) (hb : b < 10) (hc : c < 10) (hd : d < 10) :
    pyFloat? [Nat.digitChar a, Nat.digitChar b, '.', Nat.digitChar c, Nat.digitChar d]
      = some (((10 * a + b : ℕ) : ℚ) + ((10 * c + d : ℕ) : ℚ) / 100) := by
  unfold pyFloat?
  rw [pyFloatGo_digit _ _ _ _ (digitChar_isDigit a ha) (digitChar_ne_dot a ha),
    pyFloatGo_digit _ _ _ _ (digitChar_isDigit b hb) (digitChar_ne_dot b hb),
    digitChar_toNat_sub a ha, digitChar_toNat_sub b hb]
  have hall : allDigits [Nat.digitChar c, Nat.digitChar d] = true := by
    simp [allDigits, digitChar_isDigit c hc, digitChar_isDigit d hd]
  simp [pyFloatGo, hall, digitsVal_two c d hc hd]
  norm_num

/-- Evaluation of the converter on a latitude string in fixed-width layout
`DDMM.mm…`: only the digits at indices 0-3, 5 and 6 matter; any trailing
characters are ignored. -/
lemma conv_lat_eval (d1 d2 d3 d4 d5 d6 : ℕ) (extra : List Char)
    (h1 : d1 < 10) (h2 : d2 < 10) (h3 : d3 < 10) (h4 : d4 < 10)
    (h5 : d5 < 10) (h6 : d6 < 10) :
    convert_to_decimal_deg
        (String.mk (Nat.digitChar d1 :: Nat.digitChar d2 :: Nat.digitChar d3 ::
          Nat.digitChar d4 :: '.' :: Nat.digitChar d5 :: Nat.digitChar d6 :: extra))
        "lat"
      = some (pyFormat (pyRound3 (((10 * d1 + d2 : ℕ) : ℚ) +
          (((10 * d3 + d4 : ℕ) : ℚ) + ((10 * d5 + d6 : ℕ) : ℚ) / 100) / 60))) := by
  have e1 : convert_to_decimal_deg
      (String.mk (Nat.digitChar d1 :: Nat.digitChar d2 :: Nat.digitChar d3 ::
        Nat.digitChar d4 :: '.' :: Nat.digitChar d5 :: Nat.digitChar d6 :: extra)) "lat"
    = match pyFloat? [Nat.digitChar d1, Nat.digitChar d2],
        pyFloat? [Nat.digitChar d3, Nat.digitChar d4, '.',
          Nat.digitChar d5, Nat.digitChar d6] with
      | some dd, some deci => some (pyFormat (pyRound3 (dd + deci / 60)))
      | _, _ => none := rfl
  rw [e1, pyFloat2 d1 d2 h1 h2, pyFloat5 d3 d4 d5 d6 h3 h4 h5 h6]

/-- Evaluation of the converter on a longitude string in fixed-width layout
`DDDMM.mm…`: only the digits at indices 0-4, 6 and 7 matter; any trailing
characters are ignored. -/
lemma conv_long_eval (e1 e2 e3 e4 e5 e6 e7 : ℕ) (extra : List Char)
    (h1 : e1 < 10) (h2 : e2 < 10) (h3 : e3 < 10) (h4 : e4 < 10)
    (h5 : e5 < 10) (h6 : e6 < 10) (h7 : e7 < 10) :
    convert_to_decimal_deg
        (String.mk (Nat.digitChar e1 :: Nat.digitChar e2 :: Nat.digitChar e3 ::
          Nat.digitChar e4 :: Nat.digitChar e5 :: '.' :: Nat.digitChar e6 ::
          Nat.digitChar e7 :: extra))
        "long"
      = some (pyFormat (pyRound3 (((100 * e1 + 10 * e2 + e3 : ℕ) : ℚ) +
          (((10 * e4 + e5 : ℕ) : ℚ) + ((10 * e6 + e7 : ℕ) : ℚ) / 100) / 60))) := by
  have he : convert_to_decimal_deg
      (String.mk (Nat.digitChar e1 :: Nat.digitChar e2 :: Nat.digitChar e3 ::
        Nat.digitChar e4 :: Nat.digitChar e5 :: '.' :: Nat.digitChar e6 ::
        Nat.digitChar e7 :: extra)) "long"
    = match pyFloat? [Nat.digitChar e1, Nat.digitChar e2, Nat.digitChar e3],
        pyFloat? [Nat.digitChar e4, Nat.digitChar e5, '.',
          Nat.digitChar e6, Nat.digitChar e7] with
      | some dd, some deci => some (pyFormat (pyRound3 (dd + deci / 60)))
      | _, _ => none := rfl
  rw [he, pyFloat3 e1 e2 e3 h1 h2 h3, pyFloat5 e4 e5 e6 e7 h4 h5 h6 h7]

/-- Evaluation of the spec formula on a truncated latitude string `DDMM.mm`. -/
lemma spec_lat_eval (d1 d2 d3 d4 d5 d6 : ℕ)
    (h1 : d1 < 10) (h2 : d2 < 10) (h3 : d3 < 10) (h4 : d4 < 10)
    (h5 : d5 < 10) (h6 : d6 < 10) :
    spec_decimal_degrees
        (String.mk [Nat.digitChar d1, Nat.digitChar d2, Nat.digitChar d3,
          Nat.digitChar d4, '.', Nat.digitChar d5, Nat.digitChar d6])
        "lat"
      = some (pyFormat (pyRound3 (((10 * d1 + d2 : ℕ) : ℚ) +
          (((10 * d3 + d4 : ℕ) : ℚ) + ((10 * d5 + d6 : ℕ) : ℚ) / 100) / 60))) := by
  have e1 : spec_decimal_degrees
      (String.mk [Nat.digitChar d1, Nat.digitChar d2, Nat.digitChar d3,
        Nat.digitChar d4, '.', Nat.digitChar d5, Nat.digitChar d6]) "lat"
    = match pyFloat? [Nat.digitChar d1, Nat.digitChar d2],
        pyFloat? [Nat.digitChar d3, Nat.digitChar d4, '.',
          Nat.digitChar d5, Nat.digitChar d6] with
      | some dd, some mm => some (pyFormat (pyRound3 (dd + mm / 60)))
      | _, _ => none := rfl
  rw [e1, pyFloat2 d1 d2 h1 h2, pyFloat5 d3 d4 d5 d6 h3 h4 h5 h6]

/-- Evaluation of the spec formula on a truncated longitude string `DDDMM.mm`. -/
lemma spec_long_eval (e1 e2 e3 e4 e5 e6 e7 : ℕ)
    (h1 : e1 < 10) (h2 : e2 < 10) (h3 : e3 < 10) (h4 : e4 < 10)
    (h5 : e5 < 10) (h6 : e6 < 10) (h7 : e7 < 10) :
    spec_decimal_degrees
        (String.mk [Nat.digitChar e1, Nat.digitChar e2, Nat.digitChar e3,
          Nat.digitChar e4, Nat.digitChar e5, '.', Nat.digitChar e6, Nat.digitChar e7])
        "long"
      = some (pyFormat (pyRound3 (((100 * e1 + 10 * e2 + e3 : ℕ) : ℚ) +
          (((10 * e4 + e5 : ℕ) : ℚ) + ((10 * e6 + e7 : ℕ) : ℚ) / 100) / 60))) := by
  have he : spec_decimal_degrees
      (String.mk [Nat.digitChar e1, Nat.digitChar e2, Nat.digitChar e3,
        Nat.digitChar e4, Nat.digitChar e5, '.', Nat.digitChar e6, Nat.digitChar e7]) "long"
    = match pyFloat? [Nat.digitChar e1, Nat.digitChar e2, Nat.digitChar e3],
        pyFloat? [Nat.digitChar e4, Nat.digitChar e5, '.',
          Nat.digitChar e6, Nat.digitChar e7] with
      | some dd, some mm => some (pyFormat (pyRound3 (dd + mm / 60)))
      | _, _ => none := rfl
  rw [he, pyFloat3 e1 e2 e3 h1 h2 h3, pyFloat5 e4 e5 e6 e7 h4 h5 h6 h7]

/-! ### Claim C1 -/

unseal Rat.add Rat.mul Rat.inv Rat.sub in
/-- C1 counterexample: on the valid latitude string `"0100.0301"` (of the
form `DDMM.mmmm`), the converter returns `"1.0"`, while the claimed formula
`round(DD + float(MM.mmmm)/60, 3)` gives `"1.001"` — the third and fourth
fractional-minute digits do not contribute to the converter's result.
CPython computes the same two strings at this input: the code's sum
`1 + float("00.03")/60` is the double `1.0004999999999999449…` — the tiny
excess of the quotient `float("00.03")/60 = 0.000500000000000000010…` over
`0.0005` is absorbed when adding 1, whose ulp is `2^-52` — so it lies
strictly below the `1.0005` boundary and `round(…, 3)` gives `1.0`, while
the formula's `1 + float("00.0301")/60 ≈ 1.0005016666…` rounds to `1.001`.
The exact-rational model agrees: `1.0005` is an exact tie and half-even
rounds it to the even value `1.000`. -/
theorem C1_counterexample :
    convert_to_decimal_deg "0100.0301" "lat" = some "1.0" ∧
    spec_decimal_degrees "0100.0301" "lat" = some "1.001" := by
  constructor <;> decide

/-- C1 (amended): for every valid latitude string `DDMM.mmmm` and longitude
string `DDDMM.mmmm` (four fractional-minute digits), the converter returns
the spec formula applied to the string truncated to its first TWO
fractional-minute digits (`DDMM.mm` resp. `DDDMM.mm`); the remaining
fractional-minute digits never contribute. -/
theorem C1_truncated_formula
    (d1 d2 d3 d4 d5 d6 d7 d8 e1 e2 e3 e4 e5 e6 e7 e8 e9 : ℕ)
    (h1 : d1 < 10) (h2 : d2 < 10) (h3 : d3 < 10) (h4 : d4 < 10)
    (h5 : d5 < 10) (h6 : d6 < 10) (h7 : d7 < 10) (h8 : d8 < 10)
    (k1 : e1 < 10) (k2 : e2 < 10) (k3 : e3 < 10) (k4 : e4 < 10)
    (k5 : e5 < 10) (k6 : e6 < 10) (k7 : e7 < 10) (k8 : e8 < 10) (k9 : e9 < 10) :
    convert_to_decimal_deg
        (String.mk [Nat.digitChar d1, Nat.digitChar d2, Nat.digitChar d3,
          Nat.digitChar d4, '.', Nat.digitChar d5, Nat.digitChar d6,
          Nat.digitChar d7, Nat.digitChar d8]) "lat"
      = spec_decimal_degrees
          (String.mk [Nat.digitChar d1, Nat.digitChar d2, Nat.digitChar d3,
            Nat.digitChar d4, '.', Nat.digitChar d5, Nat.digitChar d6]) "lat" ∧
    convert_to_decimal_deg
        (String.mk [Nat.digitChar e1, Nat.digitChar e2, Nat.digitChar e3,
          Nat.digitChar e4, Nat.digitChar e5, '.', Nat.digitChar e6,
          Nat.digitChar e7, Nat.digitChar e8, Nat.digitChar e9]) "long"
      = spec_decimal_degrees
          (String.mk [Nat.digitChar e1, Nat.digitChar e2, Nat.digitChar e3,
            Nat.digitChar e4, Nat.digitChar e5, '.', Nat.digitChar e6,
            Nat.digitChar e7]) "long" := by
  constructor
  · rw [spec_lat_eval d1 d2 d3 d4 d5 d6 h1 h2 h3 h4 h5 h6]
    exact conv_lat_eval d1 d2 d3 d4 d5 d6
      [Nat.digitChar d7, Nat.digitChar d8] h1 h2 h3 h4 h5 h6
  · rw [spec_long_eval e1 e2 e3 e4 e5 e6 e7 k1 k2 k3 k4 k5 k6 k7]
    exact conv_long_eval e1 e2 e3 e4 e5 e6 e7
      [Nat.digitChar e8, Nat.digitChar e9] k1 k2 k3 k4 k5 k6 k7

unseal Rat.add Rat.mul Rat.inv Rat.sub in
/-- C1 witness: `C1_truncated_formula` at the latitude `"1234.5678"` and
longitude `"12345.6789"`, with the converter results evaluated. -/
theorem C1_witness :
    (convert_to_decimal_deg "1234.5678" "lat"
        = spec_decimal_degrees "1234.56" "lat" ∧
      convert_to_decimal_deg "12345.6789" "long"
        = spec_decimal_degrees "12345.67" "long") ∧
    convert_to_decimal_deg "1234.5678" "lat" = some "12.576" ∧
    convert_to_decimal_deg "12345.6789" "long" = some "123.761" :=
  ⟨C1_truncated_formula 1 2 3 4 5 6 7 8 1 2 3 4 5 6 7 8 9
      (by decide) (by decide) (by decide) (by decide) (by decide) (by decide)
      (by decide) (by decide) (by decide) (by decide) (by decide) (by decide)
      (by decide) (by decide) (by decide) (by decide) (by decide),
    by decide, by decide⟩

/-! ### Claim C2 -/

/-- C2: on any input in the expected fixed-width layout, the converter
extracts, for latitude, characters 1-2 as whole degrees, 3-4 as whole
minutes and 6-7 (skipping the decimal point at position 5) as fractional
minutes; for longitude, characters 1-3, 4-5 and 7-8 respectively; and
returns `degrees + (minutes.fraction)/60` rounded to 3 decimal places,
formatted as a string, with no hemisphere sign applied.  Trailing characters
beyond the extracted positions are ignored. -/
theorem C2_fixed_width_extraction
    (d1 d2 d3 d4 d5 d6 e1 e2 e3 e4 e5 e6 e7 : ℕ)
    (extraLat extraLong : List Char)
    (h1 : d1 < 10) (h2 : d2 < 10) (h3 : d3 < 10) (h4 : d4 < 10)
    (h5 : d5 < 10) (h6 : d6 < 10)
    (k1 : e1 < 10) (k2 : e2 < 10) (k3 : e3 < 10) (k4 : e4 < 10)
    (k5 : e5 < 10) (k6 : e6 < 10) (k7 : e7 < 10) :
    convert_to_decimal_deg
        (String.mk (Nat.digitChar d1 :: Nat.digitChar d2 :: Nat.digitChar d3 ::
          Nat.digitChar d4 :: '.' :: Nat.digitChar d5 :: Nat.digitChar d6 :: extraLat))
        "lat"
      = some (pyFormat (pyRound3 (((10 * d1 + d2 : ℕ) : ℚ) +
          (((10 * d3 + d4 : ℕ) : ℚ) + ((10 * d5 + d6 : ℕ) : ℚ) / 100) / 60))) ∧
    convert_to_decimal_deg
        (String.mk (Nat.digitChar e1 :: Nat.digitChar e2 :: Nat.digitChar e3 ::
          Nat.digitChar e4 :: Nat.digitChar e5 :: '.' :: Nat.digitChar e6 ::
          Nat.digitChar e7 :: extraLong))
        "long"
      = some (pyFormat (pyRound3 (((100 * e1 + 10 * e2 + e3 : ℕ) : ℚ) +
          (((10 * e4 + e5 : ℕ) : ℚ) + ((10 * e6 + e7 : ℕ) : ℚ) / 100) / 60))) :=
  ⟨conv_lat_eval d1 d2 d3 d4 d5 d6 extraLat h1 h2 h3 h4 h5 h6,
    conv_long_eval e1 e2 e3 e4 e5 e6 e7 extraLong k1 k2 k3 k4 k5 k6 k7⟩

unseal Rat.add Rat.mul Rat.inv Rat.sub in
/-- C2 witness: `C2_fixed_width_extraction` at the spec's example sentence
fields `"4807.038"` and `"01131.000"`, with the formula values evaluated to
`"48.117"` and `"11.517"`. -/
theorem C2_witness :
    (convert_to_decimal_deg "4807.038" "lat"
        = some (pyFormat (pyRound3 (((10 * 4 + 8 : ℕ) : ℚ) +
            (((10 * 0 + 7 : ℕ) : ℚ) + ((10 * 0 + 3 : ℕ) : ℚ) / 100) / 60))) ∧
      convert_to_decimal_deg "01131.000" "long"
        = some (pyFormat (pyRound3 (((100 * 0 + 10 * 1 + 1 : ℕ) : ℚ) +
            (((10 * 3 + 1 : ℕ) : ℚ) + ((10 * 0 + 0 : ℕ) : ℚ) / 100) / 60)))) ∧
    convert_to_decimal_deg "4807.038" "lat" = some "48.117" ∧
    convert_to_decimal_deg "01131.000" "long" = some "11.517" :=
  ⟨C2_fixed_width_extraction 4 8 0 7 0 3 0 1 1 3 1 0 0 ['8'] ['0']
      (by decide) (by decide) (by decide) (by decide) (by decide) (by decide)
      (by decide) (by decide) (by decide) (by decide) (by decide) (by decide)
      (by decide),
    by decide, by decide⟩

/-! ### Claim C4 -/

/-- C4 counterexample: `--time 2.99` is NOT accepted by the CLI parser —
`int("2.99")` raises, so argparse produces no value at all (the parse has no
`ok` result to be the integer 2). -/
theorem C4_counterexample :
    (parseTimeArg "2.99").toOption = (none : Option ℤ) := rfl

/-- C4 (amended): passing `--time 2.99` is rejected by the CLI parser with
an invalid-int usage error (argparse exits); it is never treated as the
integer 2 nor as 2.99 seconds. -/
theorem C4_rejected :
    parseTimeArg "2.99"
      = Except.error "argument -t/--time: invalid int value: 2.99" := rfl

/-! ### Claim C8 -/

/-- C8: for every base message, `fancy_waiting` appends exactly 1 period for
counter 0, 2 for counter 1, 3 for counter 2, and 3 for any other counter
value (saturating). -/
theorem C8_fancy_waiting (msg : String) :
    fancy_waiting msg 0 = msg ++ "." ∧
    fancy_waiting msg 1 = msg ++ ".." ∧
    fancy_waiting msg 2 = msg ++ "..." ∧
    ∀ i : ℤ, i ≠ 0 → i ≠ 1 → i ≠ 2 → fancy_waiting msg i = msg ++ "..." := by
  refine ⟨by simp [fancy_waiting], by simp [fancy_waiting],
    by simp [fancy_waiting], ?_⟩
  intro i h0 h1 h2
  simp [fancy_waiting, h0, h1, h2]

/-- C8 witness: `C8_fancy_waiting` at the program's message, at counters 0
and 5 (the saturating case). -/
theorem C8_witness :
    fancy_waiting "Waiting for data" 0 = "Waiting for data" ++ "." ∧
    fancy_waiting "Waiting for data" 5 = "Waiting for data" ++ "..." :=
  ⟨(C8_fancy_waiting "Waiting for data").1,
    (C8_fancy_waiting "Waiting for data").2.2.2 5
      (by decide) (by decide) (by decide)⟩

/-! ### Claim C3 -/

unseal Rat.add Rat.mul Rat.inv Rat.sub in
/-- C3 counterexample: with no prior parsed split (`parts = none`) and a
file with no `$GPGLL` line, the very first iteration's error is caught by
the blanket handler — the step yields a continuing state with the error flag
set (not an unhandled crash), it does not sleep, and the loop goes on: the
next iteration, fed a well-formed file, completes normally. -/
theorem C3_counterexample :
    (step ⟨0, -1, none⟩ (FileRead.content []) "00:00:00").state.error = 1 ∧
    (step ⟨0, -1, none⟩ (FileRead.content []) "00:00:00").slept = false ∧
    (step (step ⟨0, -1, none⟩ (FileRead.content []) "00:00:00").state
        (FileRead.content ["$GPGLL,4807.038,N,01131.000,E,225444,A"])
        "00:00:01").slept = true := by
  refine ⟨by decide, by decide, by decide⟩

/-- C3 (amended): an error before the first successful iteration — in
particular the `NameError` from referencing `parts` when no `$GPGLL` line
has ever been seen — is caught by the same blanket `except Exception`
handler as any later error: the iteration prints the two-line error block,
sets the error flag, skips the sleep and the loop continues; no error is
fatal and the loop runs until external termination. -/
theorem C3_first_iteration_error_caught (s : LoopState) (lines : List String)
    (t : String) (hp : s.parts = none) (hl : lastGpgll lines = none) :
    step s (FileRead.content lines) t =
      { state := { error := 1, it := (if s.it = 2 then 0 else s.it + 1),
                   parts := none },
        printed := ["\x1b[2F" ++ t ++ " | Bits lost... Looping again...\x1b[K",
          "Error: " ++ "NameError" ++ "\x1b[K"],
        logged := [], slept := false } := by
  simp [step, bodyE, hl, hp]

/-- C3 witness: `C3_first_iteration_error_caught` on a file holding one
non-GPGLL line, from the initial state. -/
theorem C3_witness :
    ((⟨0, -1, none⟩ : LoopState).parts = none ∧
      lastGpgll ["hello"] = none) ∧
    step ⟨0, -1, none⟩ (FileRead.content ["hello"]) "00:00:00" =
      { state := { error := 1,
                   it := (if (⟨0, -1, none⟩ : LoopState).it = 2
                          then 0 else (⟨0, -1, none⟩ : LoopState).it + 1),
                   parts := none },
        printed :=
          ["\x1b[2F" ++ "00:00:00" ++ " | Bits lost... Looping again...\x1b[K",
            "Error: " ++ "NameError" ++ "\x1b[K"],
        logged := [], slept := false } :=
  ⟨⟨rfl, by decide⟩,
    C3_first_iteration_error_caught ⟨0, -1, none⟩ ["hello"] "00:00:00"
      rfl (by decide)⟩

/-! ### Claim C7 -/

/-- C7: whenever the body of an iteration (steps 2-7: opening and scanning
the file, indexing the fields, converting, rendering) raises, the handler
prints the two-line error block whose first line rewinds two terminal lines
(`ESC[2F`), sets the error flag to 1 for the next iteration, appends nothing
to `debug.log`, and restarts the loop immediately without executing the
sleep. -/
theorem C7_error_handler (s : LoopState) (file : FileRead) (t : String)
    (pc : Option (List String)) (e : String)
    (hb : bodyE s (if s.it = 2 then 0 else s.it + 1) file t
      = Except.error (pc, e)) :
    step s file t =
      { state := { error := 1, it := (if s.it = 2 then 0 else s.it + 1),
                   parts := pc },
        printed := ["\x1b[2F" ++ t ++ " | Bits lost... Looping again...\x1b[K",
          "Error: " ++ e ++ "\x1b[K"],
        logged := [], slept := false } := by
  simp [step, hb]

/-- C7 witness: `C7_error_handler` on a missing file. -/
theorem C7_witness :
    bodyE ⟨0, 0, none⟩ (if (⟨0, 0, none⟩ : LoopState).it = 2 then 0
        else (⟨0, 0, none⟩ : LoopState).it + 1) FileRead.missing "12:00:00"
      = Except.error (none, "FileNotFoundError") ∧
    step ⟨0, 0, none⟩ FileRead.missing "12:00:00" =
      { state := { error := 1,
                   it := (if (⟨0, 0, none⟩ : LoopState).it = 2
                          then 0 else (⟨0, 0, none⟩ : LoopState).it + 1),
                   parts := none },
        printed :=
          ["\x1b[2F" ++ "12:00:00" ++ " | Bits lost... Looping again...\x1b[K",
            "Error: " ++ "FileNotFoundError" ++ "\x1b[K"],
        logged := [], slept := false } :=
  ⟨rfl,
    C7_error_handler ⟨0, 0, none⟩ FileRead.missing "12:00:00" none
      "FileNotFoundError" rfl⟩

/-! ### Claim C5 -/

/-- C5: when the most recent `$GPGLL` split has an empty latitude field
(`parts[1]`) or an empty longitude field (`parts[3]`), the decimal
conversion is skipped for that cycle, the value rendered in that field's
slot of the status line is the waiting-indicator placeholder (the other slot
showing its field unchanged, or its own placeholder if also empty), nothing
is appended to `debug.log`, and the iteration completes normally. -/
theorem C5_empty_field_placeholder (s : LoopState) (lines : List String)
    (t f0 f1 f2 f3 f4 : String) (rest : List String)
    (h : lastGpgll lines = some (f0 :: f1 :: f2 :: f3 :: f4 :: rest))
    (he : f1 = "" ∨ f3 = "") :
    (step s (FileRead.content lines) t).logged = [] ∧
    (step s (FileRead.content lines) t).slept = true ∧
    (step s (FileRead.content lines) t).printed =
      [renderStatus (if s.error = 1 then "\x1b[2F" else "\x1b[1F") t
        (if f1 = "" then
          fancy_waiting "Waiting for data" (if s.it = 2 then 0 else s.it + 1)
         else f1)
        (if f2 ≠ "" then "\x1b[97m," else "") f2
        (if f3 = "" then
          fancy_waiting "Waiting for data" (if s.it = 2 then 0 else s.it + 1)
         else f3)
        f4
        (if s.error = 1 then "\x1b[0J" else "\x1b[0K")] := by
  by_cases h1 : f1 = "" <;> by_cases h3 : f3 = ""
  · refine ⟨?_, ?_, ?_⟩ <;> simp [step, bodyE, processParts, finishE, h, h1, h3]
  · refine ⟨?_, ?_, ?_⟩ <;> simp [step, bodyE, processParts, finishE, h, h1, h3]
  · refine ⟨?_, ?_, ?_⟩ <;> simp [step, bodyE, processParts, finishE, h, h1, h3]
  · rcases he with he | he
    · exact absurd he h1
    · exact absurd he h3

/-- C5 witness: `C5_empty_field_placeholder` on the spec's example file line
with an empty latitude field, `$GPGLL,,N,01131.000,E,...`. -/
theorem C5_witness :
    (lastGpgll ["$GPGLL,,N,01131.000,E,225444,A"]
        = some ("$GPGLL" :: "" :: "N" :: "01131.000" :: "E" :: ["225444", "A"])) ∧
    (step ⟨0, 1, none⟩ (FileRead.content ["$GPGLL,,N,01131.000,E,225444,A"])
        "04:00:00").logged = [] ∧
    (step ⟨0, 1, none⟩ (FileRead.content ["$GPGLL,,N,01131.000,E,225444,A"])
        "04:00:00").slept = true ∧
    (step ⟨0, 1, none⟩ (FileRead.content ["$GPGLL,,N,01131.000,E,225444,A"])
        "04:00:00").printed =
      [renderStatus "\x1b[1F" "04:00:00" (fancy_waiting "Waiting for data" 2)
        "\x1b[97m," "N" "01131.000" "E" "\x1b[0K"] := by
  refine ⟨by decide, ?_⟩
  have h := C5_empty_field_placeholder ⟨0, 1, none⟩
    ["$GPGLL,,N,01131.000,E,225444,A"] "04:00:00"
    "$GPGLL" "" "N" "01131.000" "E" ["225444", "A"] (by decide) (Or.inl rfl)
  exact h

/-! ### Claim C10 -/

/-- C10: when exactly one of the two coordinate fields is empty, the
non-empty field is rendered in the status line as the raw degrees-minutes
string taken from the file, without decimal conversion (conversion runs only
when both fields are non-empty); the empty field's slot shows the waiting
placeholder. -/
theorem C10_raw_field_when_one_empty (s : LoopState) (lines : List String)
    (t f0 f1 f2 f3 f4 : String) (rest : List String)
    (h : lastGpgll lines = some (f0 :: f1 :: f2 :: f3 :: f4 :: rest)) :
    (f1 = "" → f3 ≠ "" → (step s (FileRead.content lines) t).printed =
      [renderStatus (if s.error = 1 then "\x1b[2F" else "\x1b[1F") t
        (fancy_waiting "Waiting for data" (if s.it = 2 then 0 else s.it + 1))
        (if f2 ≠ "" then "\x1b[97m," else "") f2 f3 f4
        (if s.error = 1 then "\x1b[0J" else "\x1b[0K")]) ∧
    (f1 ≠ "" → f3 = "" → (step s (FileRead.content lines) t).printed =
      [renderStatus (if s.error = 1 then "\x1b[2F" else "\x1b[1F") t
        f1 (if f2 ≠ "" then "\x1b[97m," else "") f2
        (fancy_waiting "Waiting for data" (if s.it = 2 then 0 else s.it + 1))
        f4
        (if s.error = 1 then "\x1b[0J" else "\x1b[0K")]) := by
  constructor <;> intro h1 h3 <;> simp [step, bodyE, processParts, finishE, h, h1, h3]

/-- C10 witness: `C10_raw_field_when_one_empty` with an empty latitude field
and longitude field `"01131.000"`, which is rendered raw (not converted to
`"11.517"`). -/
theorem C10_witness :
    (lastGpgll ["$GPGLL,,N,01131.000,E,1,A"]
        = some ("$GPGLL" :: "" :: "N" :: "01131.000" :: "E" :: ["1", "A"])) ∧
    (step ⟨0, 2, none⟩ (FileRead.content ["$GPGLL,,N,01131.000,E,1,A"])
        "05:00:00").printed =
      [renderStatus "\x1b[1F" "05:00:00" (fancy_waiting "Waiting for data" 0)
        "\x1b[97m," "N" "01131.000" "E" "\x1b[0K"] := by
  refine ⟨by decide, ?_⟩
  have h := (C10_raw_field_when_one_empty ⟨0, 2, none⟩
    ["$GPGLL,,N,01131.000,E,1,A"] "05:00:00"
    "$GPGLL" "" "N" "01131.000" "E" ["1", "A"] (by decide)).1 rfl (by decide)
  exact h

/-! ### Claim C6 -/

/-- Every successful `finishE` prints a status line whose rewind and clear
escapes are chosen from the error flag it was given. -/
lemma finishE_ok_shape (err : ℤ) (t : String) (ps lg ps' lg' : List String)
    (line : String)
    (h : finishE err t ps lg = Except.ok (ps', lg', line)) :
    ∃ q1 q2 q3 q4, line =
      renderStatus (if err = 1 then "\x1b[2F" else "\x1b[1F") t q1
        (if q2 ≠ "" then "\x1b[97m," else "") q2 q3 q4
        (if err = 1 then "\x1b[0J" else "\x1b[0K") := by
  rcases h1 : ps.get? 1 with _ | q1 <;>
    rcases h2 : ps.get? 2 with _ | q2 <;>
    rcases h3 : ps.get? 3 with _ | q3 <;>
    rcases h4 : ps.get? 4 with _ | q4 <;>
    simp only [finishE, h1, h2, h3, h4] at h
  all_goals try exact Except.noConfusion h
  simp only [Except.ok.injEq, Prod.mk.injEq] at h
  exact ⟨q1, q2, q3, q4, h.2.2.symm⟩

/-- Every successful `processParts` prints a status line whose rewind and
clear escapes are chosen from the error flag it was given. -/
lemma processParts_ok_shape (err itNew : ℤ) (t : String)
    (ps ps' lg' : List String) (line : String)
    (h : processParts err itNew t ps = Except.ok (ps', lg', line)) :
    ∃ q1 q2 q3 q4, line =
      renderStatus (if err = 1 then "\x1b[2F" else "\x1b[1F") t q1
        (if q2 ≠ "" then "\x1b[97m," else "") q2 q3 q4
        (if err = 1 then "\x1b[0J" else "\x1b[0K") := by
  rcases h1 : ps.get? 1 with _ | p1 <;>
    rcases h3 : ps.get? 3 with _ | p3 <;>
    simp only [processParts, h1, h3] at h
  · exact Except.noConfusion h
  · exact Except.noConfusion h
  · exact Except.noConfusion h
  by_cases hc : ¬p1 = "" ∧ ¬p3 = ""
  · rw [if_pos hc] at h
    rcases hcl : convert_to_decimal_deg p1 "lat" with _ | c1 <;>
      simp only [hcl] at h
    · exact Except.noConfusion h
    rcases hcg : convert_to_decimal_deg p3 "long" with _ | c3 <;>
      simp only [hcg] at h
    · exact Except.noConfusion h
    rcases hq2 : ((ps.set 1 c1).set 3 c3).get? 2 with _ | q2 <;>
      rcases hq4 : ((ps.set 1 c1).set 3 c3).get? 4 with _ | q4 <;>
      simp only [hq2, hq4] at h
    · exact Except.noConfusion h
    · exact Except.noConfusion h
    · exact Except.noConfusion h
    exact finishE_ok_shape _ _ _ _ _ _ _ h
  · rw [if_neg hc] at h
    exact finishE_ok_shape _ _ _ _ _ _ _ h

/-- Every successful pass of the loop body prints a status line whose rewind
and clear escapes are chosen from the incoming error flag. -/
lemma bodyE_ok_shape (s : LoopState) (itNew : ℤ) (file : FileRead)
    (t : String) (ps lg : List String) (line : String)
    (h : bodyE s itNew file t = Except.ok (ps, lg, line)) :
    ∃ q1 q2 q3 q4, line =
      renderStatus (if s.error = 1 then "\x1b[2F" else "\x1b[1F") t q1
        (if q2 ≠ "" then "\x1b[97m," else "") q2 q3 q4
        (if s.error = 1 then "\x1b[0J" else "\x1b[0K") := by
  cases file with
  | missing => exact Except.noConfusion h
  | content lines =>
    rcases hg : lastGpgll lines with _ | ps0 <;>
      simp only [bodyE, hg] at h
    · rcases hp : s.parts with _ | ps1 <;> simp only [hp] at h
      · exact Except.noConfusion h
      · exact processParts_ok_shape _ _ _ _ _ _ _ h
    · exact processParts_ok_shape _ _ _ _ _ _ _ h

/-- C6 counterexample: an iteration that errors is NOT always followed by an
iteration that rewinds two lines with the clear-region escape and resets the
flag: if the next iteration itself raises (here: the file disappears), the
handler prints the error block again and the error flag stays 1, not 0. -/
theorem C6_counterexample :
    (step ⟨1, 0, some ["$GPGLL", "4807.038", "N", "01131.000", "E", "A"]⟩
        FileRead.missing "00:00:02").state.error = 1 ∧
    (step ⟨1, 0, some ["$GPGLL", "4807.038", "N", "01131.000", "E", "A"]⟩
        FileRead.missing "00:00:02").printed =
      ["\x1b[2F00:00:02 | Bits lost... Looping again...\x1b[K",
        "Error: FileNotFoundError\x1b[K"] := by
  exact ⟨by decide, by decide⟩

/-- C6 (amended): after an iteration that raised an internal error, the next
iteration that completes its redraw (does not itself raise) rewinds 2
terminal lines with the clear-region escape `ESC[0J` before redrawing and
resets the error flag to 0; if the following iteration raises again, the
flag stays 1 (see the counterexample). -/
theorem C6_two_line_rewind_after_error (s : LoopState) (file : FileRead)
    (t : String) (herr : s.error = 1)
    (hok : (step s file t).slept = true) :
    (step s file t).state.error = 0 ∧
    ∃ q1 q2 q3 q4, (step s file t).printed =
      [renderStatus "\x1b[2F" t q1 (if q2 ≠ "" then "\x1b[97m," else "")
        q2 q3 q4 "\x1b[0J"] := by
  rcases hb : bodyE s (if s.it = 2 then 0 else s.it + 1) file t with ⟨pc, e⟩ | ⟨ps, lg, line⟩
  · simp [step, hb] at hok
  · have hshape := bodyE_ok_shape s _ file t ps lg line hb
    obtain ⟨q1, q2, q3, q4, hline⟩ := hshape
    rw [herr] at hline
    simp only [if_pos rfl] at hline
    refine ⟨by simp [step, hb], q1, q2, q3, q4, ?_⟩
    simp [step, hb, hline]

/-- C6 witness: `C6_two_line_rewind_after_error` from an error-flagged state
whose next iteration succeeds (both coordinate fields empty, so the
placeholder path completes the redraw). -/
theorem C6_witness :
    ((⟨1, 0, none⟩ : LoopState).error = 1 ∧
      (step ⟨1, 0, none⟩ (FileRead.content ["$GPGLL,,N,,E,x"])
        "03:00:00").slept = true) ∧
    ((step ⟨1, 0, none⟩ (FileRead.content ["$GPGLL,,N,,E,x"])
        "03:00:00").state.error = 0 ∧
      ∃ q1 q2 q3 q4,
        (step ⟨1, 0, none⟩ (FileRead.content ["$GPGLL,,N,,E,x"])
          "03:00:00").printed =
        [renderStatus "\x1b[2F" "03:00:00" q1
          (if q2 ≠ "" then "\x1b[97m," else "") q2 q3 q4 "\x1b[0J"]) :=
  ⟨⟨rfl, by decide⟩,
    C6_two_line_rewind_after_error ⟨1, 0, none⟩
      (FileRead.content ["$GPGLL,,N,,E,x"]) "03:00:00" rfl (by decide)⟩

/-! ### Claim C9 -/

unseal Rat.add Rat.mul Rat.inv Rat.sub in
/-- C9: in the status line, the value derived from the latitude field
(`parts[1]`, slot `q1`) is printed after the label `Long:` and the value
derived from the longitude field (`parts[3]`, slot `q3`) after the label
`Lat:` — the axis labels are swapped relative to the NMEA field meanings.
Concretely, for the sentence `$GPGLL,4807.038,N,01131.000,E,225444,A` the
converted latitude `48.117` appears after `Long:` and the converted
longitude `11.517` after `Lat:`. -/
theorem C9_swapped_axis_labels :
    (∀ start t q1 comma q2 q3 q4 endE : String,
      renderStatus start t q1 comma q2 q3 q4 endE =
        ("\x1b[93m" ++ start ++ t) ++
          (" \x1b[97m| \x1b[92mLong: \x1b[37m" ++ q1) ++
          (comma ++ " \x1b[37m" ++ q2) ++
          (" \x1b[97m| \x1b[92mLat: \x1b[37m" ++ q3) ++
          (comma ++ " \x1b[37m" ++ q4 ++ endE)) ∧
    (step ⟨0, -1, none⟩
        (FileRead.content ["$GPGLL,4807.038,N,01131.000,E,225444,A"])
        "22:54:44").printed =
      ["\x1b[93m\x1b[1F22:54:44 \x1b[97m| \x1b[92mLong: \x1b[37m48.117\x1b[97m, \x1b[37mN \x1b[97m| \x1b[92mLat: \x1b[37m11.517\x1b[97m, \x1b[37mE\x1b[0K"] := by
  constructor
  · intro start t q1 comma q2 q3 q4 endE
    simp [renderStatus, String.append_assoc]
  · decide

end ConvertGps
